import Mathlib

/-!
Shallow embedding of the supply-chain-siren risk-scoring core
(src/supply_chain_siren/models.py, scoring.py, osint.py) and proofs of
the specification's claims about it.

Modelling conventions:
- Python `datetime` objects are modelled by `PyDatetime` (calendar
  fields plus an optional UTC offset in seconds; `none` = naive).
- Python exceptions that can escape the modelled code are the
  constructors of `PyError`; fallible code returns `Except PyError _`.
- JSON values decoded from registry payloads and from the on-disk
  cache are the inductive `Json`; a response body that does not decode
  is represented as `none` in `Response.body`.
- Machine integers are `Nat`/`Int`: Python integers are unbounded, so
  no overflow modelling is needed.  `time.time()` (a float in Python)
  is modelled as integer unix seconds; none of the claims depend on
  sub-second cache timing.
-/

namespace SupplyChainSiren

/-- JSON values, as produced by `json.loads` / `resp.json()`.  Numbers are
modelled as integers: every numeric field the code consumes (timestamps,
download counts) is an integer in the upstream payloads. -/
inductive Json where
  | null : Json
  | bool (b : Bool) : Json
  | num (n : Int) : Json
  | str (s : String) : Json
  | arr (xs : List Json) : Json
  | obj (kvs : List (String × Json)) : Json

/-- Python exceptions that the modelled code can raise or catch.
`httpError` stands for the whole `httpx.HTTPError` hierarchy (connection
errors, timeouts); `jsonDecodeError` is `json.JSONDecodeError` raised by
`resp.json()` on a malformed body (it is a `ValueError`, NOT an
`httpx.HTTPError`); the others are the usual Python built-ins. -/
inductive PyError where
  | httpError : PyError
  | jsonDecodeError : PyError
  | typeError : PyError
  | attributeError : PyError
  | validationError : PyError
deriving DecidableEq

/-- Python truthiness of a JSON value (`if x:`). -/
def Json.truthy : Json → Bool
  | .null => false
  | .bool b => b
  | .num n => n ≠ 0
  | .str s => s ≠ ""
  | .arr xs => !xs.isEmpty
  | .obj kvs => !kvs.isEmpty

/-- Association-list lookup used by the `Json.obj` accessors. -/
def jsonLookup (kvs : List (String × Json)) (k : String) : Option Json :=
  match kvs with
  | [] => none
  | (k', v) :: rest => if k' = k then some v else jsonLookup rest k

/-- Python `d.get(k, default)`: raises `AttributeError` when the receiver
is not a dict. -/
def pyGet (j : Json) (k : String) (defaultValue : Json) : Except PyError Json :=
  match j with
  | .obj kvs => .ok ((jsonLookup kvs k).getD defaultValue)
  | _ => .error .attributeError

/-- Python iteration `for x in j`: lists yield elements, strings yield
one-character strings, dicts yield their keys, anything else raises
`TypeError`. -/
def pyIter (j : Json) : Except PyError (List Json) :=
  match j with
  | .arr xs => .ok xs
  | .str s => .ok (s.data.map fun c => Json.str (String.singleton c))
  | .obj kvs => .ok (kvs.map fun kv => Json.str kv.1)
  | _ => .error .typeError

/-- Python `a < b` on JSON scalars: defined for string/string and
number/number, `TypeError` otherwise (booleans compare as integers). -/
def pyLt (a b : Json) : Except PyError Bool :=
  match a, b with
  | .str x, .str y => .ok (decide (x < y))
  | .num x, .num y => .ok (decide (x < y))
  | .bool x, .num y => .ok (decide ((if x then (1 : Int) else 0) < y))
  | .num x, .bool y => .ok (decide (x < (if y then (1 : Int) else 0)))
  | .bool x, .bool y => .ok (decide ((if x then (1 : Int) else 0) < (if y then 1 else 0)))
  | _, _ => .error .typeError

/-- Python `str(x)` on a JSON scalar (containers get a best-effort
rendering; the code only reaches this for scalar maintainer entries). -/
def pyStr : Json → String
  | .null => "None"
  | .bool true => "True"
  | .bool false => "False"
  | .num n => toString n
  | .str s => s
  | .arr _ => "[...]"
  | .obj _ => "\x7b...\x7d"

/-! ## Python datetimes (datetime.datetime) -/

/-- A Python `datetime`: calendar fields plus `utcoffset` in seconds
(`none` models a naive datetime, `some 0` an aware UTC one). -/
structure PyDatetime where
  year : Nat
  month : Nat
  day : Nat
  hour : Nat
  minute : Nat
  second : Nat
  microsecond : Nat
  utcoffset : Option Int
deriving DecidableEq

/-- Days since 1970-01-01 of a proleptic-Gregorian civil date
(Hinnant's days-from-civil; valid for year ≥ 1, which Python's
`datetime` guarantees). -/
def daysFromCivil (y m d : Nat) : Int :=
  let yAdj := if m ≤ 2 then y - 1 else y
  let era := yAdj / 400
  let yoe := yAdj % 400
  let mp := if m ≤ 2 then m + 9 else m - 3
  let doy := (153 * mp + 2) / 5 + d - 1
  let doe := yoe * 365 + yoe / 4 - yoe / 100 + doy
  (era * 146097 + doe : Int) - 719468

def microsecondsPerDay : Int := 86400000000

/-- Microseconds since the epoch of a datetime interpreted at the given
UTC offset (seconds). -/
def PyDatetime.toEpochMicros (dt : PyDatetime) (offset : Int) : Int :=
  (daysFromCivil dt.year dt.month dt.day * 86400
    + dt.hour * 3600 + dt.minute * 60 + dt.second - offset) * 1000000
    + dt.microsecond

/-- Python `a - b` on datetimes, in microseconds: defined between two
aware or two naive datetimes, `TypeError` (modelled as `none`) when
mixing aware and naive. -/
def PyDatetime.sub (a b : PyDatetime) : Option Int :=
  match a.utcoffset, b.utcoffset with
  | some oa, some ob => some (a.toEpochMicros oa - b.toEpochMicros ob)
  | none, none => some (a.toEpochMicros 0 - b.toEpochMicros 0)
  | _, _ => none

/-! ## Data model (models.py) -/

/-- models.py restricts `Ecosystem` to the literals "pypi" and "npm"
(pydantic `Literal`); the string type keeps `fetch_metadata`'s
unknown-ecosystem branch representable. -/
abbrev Ecosystem := String

/-- Embeds `DependencySpec` (models.py): a dependency discovered in a manifest.
`source_path` is a `pathlib.Path` in the source, modelled as its string. -/
structure DependencySpec where
  name : String
  version : Option String
  ecosystem : Ecosystem
  source_path : String
deriving DecidableEq

/-- The `slug` computed field of `DependencySpec`. -/
def DependencySpec.slug (spec : DependencySpec) : String :=
  spec.ecosystem ++ ":" ++ spec.name.toLower

/-- Embeds `PackageMetadata` (models.py): normalized registry metadata. -/
structure PackageMetadata where
  name : String
  ecosystem : Ecosystem
  latest_version : Option String
  latest_published : Option PyDatetime
  first_published : Option PyDatetime
  maintainers : List String
  weekly_downloads : Option Int
  homepage : Option String
  repository_url : Option String
  raw : Json

/-- The closed category set of `RiskSignal.category` (a pydantic
`Literal` in models.py); constructor names mirror the literals
"typosquat", "fresh-release", "stale-package", "metadata-gaps",
"popularity", "maintainers". -/
inductive Category where
  | typosquat : Category
  | freshRelease : Category
  | stalePackage : Category
  | metadataGaps : Category
  | popularity : Category
  | maintainers : Category
deriving DecidableEq

/-- Embeds `RiskSignal` (models.py).  `score` carries the severity; pydantic
validates `0 ≤ score ≤ 100`, the lower bound being encoded here by
`Nat`. -/
structure RiskSignal where
  reason : String
  score : Nat
  category : Category
deriving DecidableEq

/-- Embeds `PackageAssessment` (models.py). -/
structure PackageAssessment where
  dependency : DependencySpec
  metadata : Option PackageMetadata
  signals : List RiskSignal
  score : Nat

/-- Embeds `PackageAssessment.add_signal` (models.py lines 59-61): append the
signal and clamp the running total at 100. -/
def PackageAssessment.add_signal (self : PackageAssessment) (signal : RiskSignal) :
    PackageAssessment :=
  { self with
    signals := self.signals ++ [signal]
    score := min 100 (self.score + signal.score) }

/-- Sum of the severities of a signal list (the spec's
`sum(signal.severity for signal in signals)`). -/
def severitySum (signals : List RiskSignal) : Nat :=
  (signals.map RiskSignal.score).sum

/-! ## Levenshtein distance (rapidfuzz.distance.Levenshtein.distance with
unit weights): classic dynamic-programming formulation, one row at a
time. -/

/-- One Levenshtein DP row step past the first cell: `diag`/`left` are
the values diagonally above-left and to the left of the cell being
computed, `ups` the remainder of the previous row. -/
def levRowAux (x : Char) : Int → Int → List Char → List Int → List Int
  | _, _, [], _ => []
  | _, _, _ :: _, [] => []
  | diag, left, y :: ys, up :: ups =>
    let v := min (left + 1) (min (up + 1) (diag + (if x = y then 0 else 1)))
    v :: levRowAux x up v ys ups

/-- Advance the whole DP row for one character of the first string. -/
def levNextRow (bs : List Char) (row : List Int) (x : Char) : List Int :=
  match row with
  | [] => []
  | d :: ups => (d + 1) :: levRowAux x d (d + 1) bs ups

/-- Classic Levenshtein distance (insert/delete/substitute, unit cost),
the metric computed by `rapidfuzz.distance.Levenshtein.distance`. -/
def levenshtein (a b : String) : Int :=
  let bs := b.data
  let row0 : List Int := (List.range (bs.length + 1)).map fun i => (i : Int)
  (a.data.foldl (levNextRow bs) row0).getLastD 0

/-! ## Risk evaluators and aggregation (scoring.py) -/

def RECENT_THRESHOLD_DAYS : Int := 45
def STALE_THRESHOLD_DAYS : Int := 365
def LOW_DOWNLOADS_THRESHOLD : Int := 500

/-- The signal emitted by `_evaluate_typosquat` (reason text models the
f-string, quotation marks around the names elided). -/
def typosquatSignal (name : String) (distance : Int) (top : String) : RiskSignal :=
  { reason := "Name " ++ name ++ " is " ++ toString distance
      ++ " edits away from popular package " ++ top ++ "."
    score := 50
    category := .typosquat }

def freshReleaseSignal : RiskSignal :=
  { reason := "Package is newly published; consider additional vetting."
    score := 25
    category := .freshRelease }

def stalePackageSignal : RiskSignal :=
  { reason := "Latest release is over a year old; project may be unmaintained."
    score := 20
    category := .stalePackage }

def popularitySignal (downloads : Int) : RiskSignal :=
  { reason := "Weekly downloads are low (" ++ toString downloads
      ++ "); limited community adoption."
    score := 15
    category := .popularity }

def maintainersSignal : RiskSignal :=
  { reason := "Single maintainer detected; project is susceptible to account compromise."
    score := 20
    category := .maintainers }

def metadataGapsSignal : RiskSignal :=
  { reason := "Package metadata unavailable; registry lookup failed."
    score := 40
    category := .metadataGaps }

/-- The per-ecosystem reference corpus: `_top_packages` is a JSON object
mapping ecosystem to a list of names, loaded once at startup; it is a
parameter of the embedding. -/
abbrev TopPackages := List (String × List String)

/-- Embeds `get_top_packages` (osint.py): `_top_packages.get(ecosystem, [])`. -/
def get_top_packages (corpora : TopPackages) (ecosystem : String) : List String :=
  match corpora with
  | [] => []
  | (eco, names) :: rest =>
    if eco = ecosystem then names else get_top_packages rest ecosystem

/-- The scan loop of `_evaluate_typosquat` (scoring.py lines 38-51):
distance 0 stops the scan with no signal; distance ≤ 2 emits one signal
and stops; otherwise continue down the reference list. -/
def typosquatScan (spec : DependencySpec) (assessment : PackageAssessment) :
    List String → PackageAssessment
  | [] => assessment
  | top :: rest =>
    let distance := levenshtein spec.name top
    if distance = 0 then assessment
    else if distance ≤ 2 then
      assessment.add_signal (typosquatSignal spec.name distance top)
    else typosquatScan spec assessment rest

/-- Embeds `_evaluate_typosquat` (scoring.py). -/
def evaluate_typosquat (corpora : TopPackages) (spec : DependencySpec)
    (assessment : PackageAssessment) : PackageAssessment :=
  typosquatScan spec assessment (get_top_packages corpora spec.ecosystem)

/-- Embeds `_evaluate_recency` (scoring.py lines 54-65).  `now` is the value of
`datetime.now(timezone.utc)`; subtracting a naive `first_published`
raises `TypeError` in Python, modelled by the error branch. -/
def evaluate_recency (now : PyDatetime) (metadata : PackageMetadata)
    (assessment : PackageAssessment) : Except PyError PackageAssessment :=
  match metadata.first_published with
  | none => .ok assessment
  | some fp =>
    match PyDatetime.sub now fp with
    | none => .error .typeError
    | some diff =>
      if diff ≤ RECENT_THRESHOLD_DAYS * microsecondsPerDay then
        .ok (assessment.add_signal freshReleaseSignal)
      else .ok assessment

/-- Embeds `_evaluate_staleness` (scoring.py lines 68-79). -/
def evaluate_staleness (now : PyDatetime) (metadata : PackageMetadata)
    (assessment : PackageAssessment) : Except PyError PackageAssessment :=
  match metadata.latest_published with
  | none => .ok assessment
  | some lp =>
    match PyDatetime.sub now lp with
    | none => .error .typeError
    | some diff =>
      if diff ≥ STALE_THRESHOLD_DAYS * microsecondsPerDay then
        .ok (assessment.add_signal stalePackageSignal)
      else .ok assessment

/-- Embeds `_evaluate_popularity` (scoring.py lines 82-93). -/
def evaluate_popularity (metadata : PackageMetadata)
    (assessment : PackageAssessment) : PackageAssessment :=
  match metadata.weekly_downloads with
  | none => assessment
  | some downloads =>
    if downloads < LOW_DOWNLOADS_THRESHOLD then
      assessment.add_signal (popularitySignal downloads)
    else assessment

/-- Embeds `_evaluate_maintainers` (scoring.py lines 96-104): `metadata.maintainers
or []` is the list itself (the `or []` is the identity on lists). -/
def evaluate_maintainers (metadata : PackageMetadata)
    (assessment : PackageAssessment) : PackageAssessment :=
  if metadata.maintainers.length ≤ 1 then
    assessment.add_signal maintainersSignal
  else assessment

/-- Embeds `assess_dependency` (scoring.py lines 15-34).  The evaluators obtain
`datetime.now(timezone.utc)` themselves in the source; the embedding
passes the evaluation instant `now` explicitly. -/
def assess_dependency (corpora : TopPackages) (now : PyDatetime)
    (spec : DependencySpec) (metadata : Option PackageMetadata) :
    Except PyError PackageAssessment :=
  let assessment : PackageAssessment :=
    { dependency := spec, metadata := metadata, signals := [], score := 0 }
  match metadata with
  | none => .ok (assessment.add_signal metadataGapsSignal)
  | some md => do
    let a1 := evaluate_typosquat corpora spec assessment
    let a2 ← evaluate_recency now md a1
    let a3 ← evaluate_staleness now md a2
    let a4 := evaluate_popularity md a3
    let a5 := evaluate_maintainers md a4
    return a5

/-! ## Timestamp parsing (osint.py `_parse_datetime`)

`datetime.fromisoformat` is modelled for the extended ISO-8601 shapes
the registries and the code exercise: `YYYY-MM-DD`, optionally followed
by a one-character separator and `HH[:MM[:SS[.ffffff]]]`, optionally
followed by a numeric offset `±HH:MM[:SS]`.  Out-of-range fields and
anything else fail to parse (Python raises `ValueError`). -/

/-- Consume exactly `n` decimal digits, returning their value. -/
def takeDigits (acc : Nat) : Nat → List Char → Option (Nat × List Char)
  | 0, cs => some (acc, cs)
  | _ + 1, [] => none
  | n + 1, c :: cs =>
    if c.isDigit then takeDigits (acc * 10 + (c.toNat - 48)) n cs else none

/-- Consume one expected character. -/
def expectChar (c : Char) : List Char → Option (List Char)
  | [] => none
  | x :: xs => if x = c then some xs else none

/-- Gregorian leap year (Python `calendar`/`datetime` rule). -/
def isLeapYear (y : Nat) : Bool :=
  y % 4 = 0 && (y % 100 ≠ 0 || y % 400 = 0)

def daysInMonth (y m : Nat) : Nat :=
  if m = 2 then (if isLeapYear y then 29 else 28)
  else if m = 4 ∨ m = 6 ∨ m = 9 ∨ m = 11 then 30
  else 31

/-- Microseconds denoted by a fractional-seconds digit string (at most
six digits significant, right-padded to six). -/
def fracMicros (ds : List Char) : Nat :=
  (ds.take 6).foldl (fun a ch => a * 10 + (ch.toNat - 48)) 0
    * 10 ^ (6 - (ds.take 6).length)

/-- Parse `HH[:MM[:SS[(.|,)ffffff]]]`, validating field ranges; returns
(hour, minute, second, microsecond, unconsumed suffix). -/
def parseTimePart (cs0 : List Char) : Option (Nat × Nat × Nat × Nat × List Char) :=
  match takeDigits 0 2 cs0 with
  | none => none
  | some (h, cs) =>
    if h > 23 then none
    else
      match cs with
      | ':' :: cs =>
        (match takeDigits 0 2 cs with
         | none => none
         | some (mi, cs) =>
           if mi > 59 then none
           else
             match cs with
             | ':' :: cs =>
               (match takeDigits 0 2 cs with
                | none => none
                | some (sec, cs) =>
                  if sec > 59 then none
                  else
                    match cs with
                    | c :: cs' =>
                      if c = '.' ∨ c = ',' then
                        (if (cs'.span Char.isDigit).1.isEmpty then none
                         else some (h, mi, sec, fracMicros (cs'.span Char.isDigit).1,
                           (cs'.span Char.isDigit).2))
                      else some (h, mi, sec, 0, c :: cs')
                    | [] => some (h, mi, sec, 0, []))
             | _ => some (h, mi, 0, 0, cs))
      | _ => some (h, 0, 0, 0, cs)

/-- Parse the digits of a UTC offset after its sign: `HH:MM[:SS]`,
consuming the whole remainder; returns the magnitude in seconds.
Python's `timezone` requires the offset to be strictly inside ±24 h. -/
def parseOffsetTail (cs0 : List Char) : Option Nat :=
  match takeDigits 0 2 cs0 with
  | none => none
  | some (oh, cs) =>
    match expectChar ':' cs with
    | none => none
    | some cs =>
      match takeDigits 0 2 cs with
      | none => none
      | some (om, cs) =>
        if oh > 23 ∨ om > 59 then none
        else
          match cs with
          | [] => some (oh * 3600 + om * 60)
          | ':' :: cs =>
            (match takeDigits 0 2 cs with
             | none => none
             | some (os, cs) =>
               if os > 59 then none
               else if cs.isEmpty then some (oh * 3600 + om * 60 + os) else none)
          | _ => none

/-- Model of `datetime.fromisoformat`: `none` models the `ValueError`
raised on a malformed string. -/
def fromisoformat (s : String) : Option PyDatetime :=
  match takeDigits 0 4 s.data with
  | none => none
  | some (y, cs) =>
    match expectChar '-' cs with
    | none => none
    | some cs =>
      match takeDigits 0 2 cs with
      | none => none
      | some (mo, cs) =>
        match expectChar '-' cs with
        | none => none
        | some cs =>
          match takeDigits 0 2 cs with
          | none => none
          | some (d, cs) =>
            if mo < 1 ∨ mo > 12 ∨ d < 1 ∨ d > daysInMonth y mo then none
            else
              match cs with
              | [] => some ⟨y, mo, d, 0, 0, 0, 0, none⟩
              | _sep :: rest =>
                match parseTimePart rest with
                | none => none
                | some (h, mi, sec, us, rest2) =>
                  match rest2 with
                  | [] => some ⟨y, mo, d, h, mi, sec, us, none⟩
                  | c :: rest3 =>
                    if c = '+' then
                      match parseOffsetTail rest3 with
                      | none => none
                      | some off => some ⟨y, mo, d, h, mi, sec, us, some (off : Int)⟩
                    else if c = '-' then
                      match parseOffsetTail rest3 with
                      | none => none
                      | some off => some ⟨y, mo, d, h, mi, sec, us, some (-(off : Int))⟩
                    else none

/-- Replace every occurrence of a character by a replacement string. -/
def replaceChar (c : Char) (rep : List Char) : List Char → List Char
  | [] => []
  | x :: xs =>
    if x = c then rep ++ replaceChar c rep xs else x :: replaceChar c rep xs

/-- The source's `text.replace("Z", "+00:00")`: a one-character pattern,
so replacement is occurrence-by-occurrence. -/
def replaceZ (s : String) : String :=
  String.mk (replaceChar 'Z' "+00:00".data s.data)

/-- Embeds `_parse_datetime` (osint.py lines 179-187): falsy input (`None` or
the empty string) yields `None`; otherwise every "Z" is replaced by
"+00:00" and the string is handed to `fromisoformat`, a `ValueError`
being caught to `None`. -/
def parse_datetime (text : Option String) : Option PyDatetime :=
  match text with
  | none => none
  | some t => if t = "" then none else fromisoformat (replaceZ t)

/-- The `_parse_datetime(x)` call sites in the fetch routines pass a
value taken from a JSON payload: falsy values fall into the `if not
text` branch, a truthy non-string raises `AttributeError` at
`text.replace`. -/
def parseDatetimeArg (v : Json) : Except PyError (Option PyDatetime) :=
  if ¬v.truthy then .ok none
  else match v with
    | .str s => .ok (parse_datetime (some s))
    | _ => .error .attributeError

/-! ## Metadata cache (osint.py `MetadataCache`) -/

def CACHE_TTL_SECONDS : Int := 6 * 60 * 60

/-- Python numeric coercion for the `time.time() - entry.get("timestamp", 0)`
subtraction: numbers and booleans are numeric, anything else raises
`TypeError`. -/
def pyToInt (j : Json) : Except PyError Int :=
  match j with
  | .num n => .ok n
  | .bool b => .ok (if b then 1 else 0)
  | _ => .error .typeError

/-- Python `d.items()`: requires an actual dict. -/
def pyItems (j : Json) : Except PyError (List (String × Json)) :=
  match j with
  | .obj kvs => .ok kvs
  | _ => .error .attributeError

/-- Dict upsert `d[k] = v`: an existing key keeps its position, a new
key is appended (Python dict insertion order). -/
def jsonUpsert : List (String × Json) → String → Json → List (String × Json)
  | [], k, v => [(k, v)]
  | (k', v') :: rest, k, v =>
    if k' = k then (k, v) :: rest else (k', v') :: jsonUpsert rest k v

/-- Embeds `MetadataCache.__init__` (osint.py lines 19-28): the cache state is
whatever `json.loads` produced from the backing file; a missing file
(`none`) or an undecodable one (`some none`) both fall back to `{}`. -/
def MetadataCache.init (stored : Option (Option Json)) : Json :=
  match stored with
  | none => Json.obj []
  | some none => Json.obj []
  | some (some j) => j

/-- Embeds `MetadataCache.get` (osint.py lines 30-36).  `Json.null` models the
Python `None` result; `now` is `time.time()` in seconds. -/
def MetadataCache.get (payload : Json) (now : Int) (key : String) :
    Except PyError Json := do
  let entry ← pyGet payload key Json.null
  if ¬entry.truthy then return Json.null
  else do
    let tsJson ← pyGet entry "timestamp" (Json.num 0)
    let ts ← pyToInt tsJson
    if now - ts > CACHE_TTL_SECONDS then return Json.null
    else pyGet entry "data" Json.null

/-- Embeds `MetadataCache.set` (osint.py lines 38-40): upsert the entry with a
fresh timestamp (the synchronous file write carries no further state). -/
def MetadataCache.set (payload : Json) (now : Int) (key : String) (data : Json) :
    Except PyError Json :=
  match payload with
  | .obj kvs =>
    .ok (Json.obj (jsonUpsert kvs key
      (Json.obj [("timestamp", Json.num now), ("data", data)])))
  | _ => .error .typeError

/-! ## Registry client (osint.py fetch routines) -/

/-- An HTTP response: `body = none` models a body that `resp.json()`
cannot decode. -/
structure Response where
  status_code : Int
  body : Option Json

/-- Embeds `resp.json()`: raises `json.JSONDecodeError` — a `ValueError`, not
an `httpx.HTTPError` — on a malformed body. -/
def Response.json (r : Response) : Except PyError Json :=
  match r.body with
  | some j => .ok j
  | none => .error .jsonDecodeError

/-- The network: `_client.get`; an `error .httpError` result models the
`httpx.HTTPError` hierarchy (connection failures, timeouts). -/
structure Net where
  get : String → Except PyError Response

/-- Field decodings performed by pydantic when a `PackageMetadata` is
constructed (`str | None`, `int | None`, `list[str]` fields). -/
def decodeOptStrJson (v : Json) : Except PyError (Option String) :=
  match v with
  | .null => .ok none
  | .str s => .ok (some s)
  | _ => .error .validationError

def decodeOptIntJson (v : Json) : Except PyError (Option Int) :=
  match v with
  | .null => .ok none
  | .num n => .ok (some n)
  | _ => .error .validationError

def decodeStrList (xs : List Json) : Except PyError (List String) :=
  xs.mapM fun x =>
    match x with
    | Json.str s => Except.ok s
    | _ => Except.error PyError.validationError

/-- Python `max(values)` over a nonempty list (`if x > cur: cur = x`). -/
def pyMax (first : Json) (rest : List Json) : Except PyError Json :=
  rest.foldlM (fun cur x => do
    let lt ← pyLt cur x
    pure (if lt then x else cur)) first

/-- Embeds `versions.get(latest, {})`: dict lookup with an arbitrary JSON key —
string keys look up, other hashable keys miss, unhashable keys raise. -/
def pyGetJsonKey (j : Json) (key : Json) (defaultValue : Json) : Except PyError Json :=
  match j with
  | .obj kvs =>
    match key with
    | .str s => .ok ((jsonLookup kvs s).getD defaultValue)
    | .arr _ => .error .typeError
    | .obj _ => .error .typeError
    | _ => .ok defaultValue
  | _ => .error .attributeError

/-- Embeds `_fetch_pypi` (osint.py lines 69-103). -/
def fetch_pypi (net : Net) (spec : DependencySpec) :
    Except PyError (Option PackageMetadata) := do
  let resp ← net.get ("https://pypi.org/pypi/" ++ spec.name ++ "/json")
  if resp.status_code ≠ 200 then return none
  else do
  let payload ← resp.json
  let info ← pyGet payload "info" (Json.obj [])
  let releases ← pyGet payload "releases" (Json.obj [])
  let latestVersionJson ← pyGet info "version" Json.null
  let items ← pyItems releases
  let st ← items.foldlM (fun (st : List Json × Option Json) kv => do
      let files ← pyIter kv.2
      files.foldlM (fun (st : List Json × Option Json) file_entry => do
          let ut ← pyGet file_entry "upload_time_iso_8601" Json.null
          if ut.truthy then do
            let (times, fr) := st
            let takeIt ← match fr with
              | none => pure true
              | some frv => pyLt ut frv
            pure (times ++ [ut], if takeIt then some ut else fr)
          else pure st) st)
    (([], none) : List Json × Option Json)
  let (release_times, first_release) := st
  let latestPublishedJson ← match release_times with
    | [] => pure Json.null
    | t :: ts => pyMax t ts
  let m0 ← pyGet info "maintainers" Json.null
  let m1 := if m0.truthy then m0 else Json.arr []
  let mItems ← pyIter m1
  let mapped ← mItems.mapM (fun m =>
    match m with
    | Json.obj _ => pyGet m "name" Json.null
    | _ => pure (Json.str (pyStr m)))
  let maintainers ← decodeStrList (mapped.filter Json.truthy)
  let latest_published ← parseDatetimeArg latestPublishedJson
  let first_published ← parseDatetimeArg (first_release.getD Json.null)
  let latest_version ← decodeOptStrJson latestVersionJson
  let wd ← pyGet payload "last_month_downloads" Json.null
  let weekly_downloads ← decodeOptIntJson wd
  let hp ← pyGet info "home_page" Json.null
  let homepage ← decodeOptStrJson hp
  let pu ← pyGet info "project_url" Json.null
  let repository_url ← decodeOptStrJson pu
  return some
    { name := spec.name, ecosystem := "pypi", latest_version,
      latest_published, first_published, maintainers, weekly_downloads,
      homepage, repository_url, raw := payload }

/-- Embeds `_fetch_npm_downloads` (osint.py lines 166-176): its `try` block
catches only `httpx.HTTPError`. -/
def fetch_npm_downloads (net : Net) (package : String) : Except PyError Json := do
  match net.get ("https://api.npmjs.org/downloads/point/last-week/" ++ package) with
  | .error .httpError => return Json.null
  | .error e => .error e
  | .ok resp =>
    if resp.status_code ≠ 200 then return Json.null
    else do
      let data ← resp.json
      pyGet data "downloads" Json.null

/-- Embeds `_fetch_npm` (osint.py lines 106-163). -/
def fetch_npm (net : Net) (spec : DependencySpec) :
    Except PyError (Option PackageMetadata) := do
  let resp ← net.get ("https://registry.npmjs.org/" ++ spec.name)
  if resp.status_code ≠ 200 then return none
  else do
  let payload ← resp.json
  let time_section ← pyGet payload "time" (Json.obj [])
  let versions ← pyGet payload "versions" (Json.obj [])
  let distTags ← pyGet payload "dist-tags" (Json.obj [])
  let latest ← pyGet distTags "latest" Json.null
  let items ← pyItems time_section
  let st ← items.foldlM (fun (st : Option Json × Option Json) kv => do
      if kv.1 = "created" ∨ kv.1 = "modified" then pure st
      else do
        let published := kv.2
        let (lp, fp) := st
        let updLp ← match lp with
          | none => pure true
          | some lpv =>
            if ¬lpv.truthy then pure true else pyLt lpv published
        let lp' := if updLp then some published else lp
        let updFp ← match fp with
          | none => pure true
          | some fpv =>
            if ¬fpv.truthy then pure true else pyLt published fpv
        let fp' := if updFp then some published else fp
        pure (lp', fp'))
    ((none, none) : Option Json × Option Json)
  let (latestPub, firstPub) := st
  let maintainers_data0 ← pyGet payload "maintainers" Json.null
  let maintainers_data := if maintainers_data0.truthy then maintainers_data0 else Json.arr []
  let mItems ← pyIter maintainers_data
  let mJson ← mItems.foldlM (fun (acc : List Json) m =>
    match m with
    | Json.obj _ => do
      let mn ← pyGet m "name" Json.null
      pure (if mn.truthy then acc ++ [mn] else acc)
    | Json.str s => pure (acc ++ [Json.str s])
    | _ => pure acc) []
  let maintainers ← decodeStrList mJson
  let downloadsJson ← fetch_npm_downloads net spec.name
  let weekly_downloads ← decodeOptIntJson downloadsJson
  let version_payload ← pyGetJsonKey versions latest (Json.obj [])
  let hp ← pyGet version_payload "homepage" Json.null
  let homepage ← decodeOptStrJson hp
  let repo ← pyGet version_payload "repository" Json.null
  let repoUrlJson ← match repo with
    | Json.obj _ => pyGet repo "url" Json.null
    | Json.str s => pure (Json.str s)
    | _ => pure Json.null
  let repository_url ← decodeOptStrJson repoUrlJson
  let latest_version ← decodeOptStrJson latest
  let latest_published ← parseDatetimeArg (latestPub.getD Json.null)
  let first_published ← parseDatetimeArg (firstPub.getD Json.null)
  return some
    { name := spec.name, ecosystem := "npm", latest_version,
      latest_published, first_published, maintainers, weekly_downloads,
      homepage, repository_url, raw := payload }

/-! ## Cache (de)serialization of PackageMetadata -/

/-- Left-pad a number with zeros. -/
def padNum (width n : Nat) : String :=
  let s := toString n
  String.mk (List.replicate (width - s.length) '0') ++ s

/-- Embeds `datetime.isoformat()` as serialized into the JSON cache
(`model_dump(mode="json")`). -/
def PyDatetime.isoformat (dt : PyDatetime) : String :=
  padNum 4 dt.year ++ "-" ++ padNum 2 dt.month ++ "-" ++ padNum 2 dt.day ++ "T"
    ++ padNum 2 dt.hour ++ ":" ++ padNum 2 dt.minute ++ ":" ++ padNum 2 dt.second
    ++ (if dt.microsecond = 0 then "" else "." ++ padNum 6 dt.microsecond)
    ++ (match dt.utcoffset with
        | none => ""
        | some o =>
          let sign := if o < 0 then "-" else "+"
          let a := o.natAbs
          sign ++ padNum 2 (a / 3600) ++ ":" ++ padNum 2 (a % 3600 / 60))

def optStrJson : Option String → Json
  | none => Json.null
  | some s => Json.str s

def optIntJson : Option Int → Json
  | none => Json.null
  | some n => Json.num n

def optDtJson : Option PyDatetime → Json
  | none => Json.null
  | some dt => Json.str dt.isoformat

/-- Embeds `metadata.model_dump(mode="json")` (the value stored by
`_cache.set`). -/
def encodePackageMetadata (md : PackageMetadata) : Json :=
  Json.obj
    [("name", Json.str md.name),
     ("ecosystem", Json.str md.ecosystem),
     ("latest_version", optStrJson md.latest_version),
     ("latest_published", optDtJson md.latest_published),
     ("first_published", optDtJson md.first_published),
     ("maintainers", Json.arr (md.maintainers.map Json.str)),
     ("weekly_downloads", optIntJson md.weekly_downloads),
     ("homepage", optStrJson md.homepage),
     ("repository_url", optStrJson md.repository_url),
     ("raw", md.raw)]

def decodeOptStrField (kvs : List (String × Json)) (k : String) :
    Except PyError (Option String) :=
  match jsonLookup kvs k with
  | none => .ok none
  | some v => decodeOptStrJson v

def decodeOptIntField (kvs : List (String × Json)) (k : String) :
    Except PyError (Option Int) :=
  match jsonLookup kvs k with
  | none => .ok none
  | some v => decodeOptIntJson v

/-- Pydantic's lax `datetime` validation parses ISO-8601 strings
(including a trailing "Z"); modelled with the same ISO parser. -/
def decodeOptDtField (kvs : List (String × Json)) (k : String) :
    Except PyError (Option PyDatetime) :=
  match jsonLookup kvs k with
  | none => .ok none
  | some Json.null => .ok none
  | some (Json.str s) =>
    match fromisoformat (replaceZ s) with
    | some dt => .ok (some dt)
    | none => .error .validationError
  | some _ => .error .validationError

/-- Embeds `PackageMetadata(**cached)`: pydantic validation of the cached dict;
required fields missing or ill-typed raise `ValidationError`. -/
def decodePackageMetadata (j : Json) : Except PyError PackageMetadata := do
  match j with
  | Json.obj kvs => do
    let name ← match jsonLookup kvs "name" with
      | some (Json.str s) => Except.ok s
      | _ => Except.error PyError.validationError
    let ecosystem ← match jsonLookup kvs "ecosystem" with
      | some (Json.str s) =>
        if s = "pypi" ∨ s = "npm" then Except.ok s
        else Except.error PyError.validationError
      | _ => Except.error PyError.validationError
    let latest_version ← decodeOptStrField kvs "latest_version"
    let latest_published ← decodeOptDtField kvs "latest_published"
    let first_published ← decodeOptDtField kvs "first_published"
    let maintainers ← match jsonLookup kvs "maintainers" with
      | none => Except.ok []
      | some (Json.arr xs) => decodeStrList xs
      | some _ => Except.error PyError.validationError
    let weekly_downloads ← decodeOptIntField kvs "weekly_downloads"
    let homepage ← decodeOptStrField kvs "homepage"
    let repository_url ← decodeOptStrField kvs "repository_url"
    let raw ← match jsonLookup kvs "raw" with
      | none => Except.ok (Json.obj [])
      | some (Json.obj r) => Except.ok (Json.obj r)
      | some _ => Except.error PyError.validationError
    return { name, ecosystem, latest_version, latest_published,
             first_published, maintainers, weekly_downloads, homepage,
             repository_url, raw }
  | _ => .error .validationError

/-- Embeds `fetch_metadata` (osint.py lines 48-66).  State threading: the cache
payload goes in and the (possibly updated) payload comes out; `now` is
`time.time()`.  Only `httpx.HTTPError` is caught around the dispatch —
any other exception (notably `json.JSONDecodeError` from `resp.json()`)
propagates to the caller. -/
def fetch_metadata (cachePayload : Json) (net : Net) (now : Int)
    (spec : DependencySpec) :
    Except PyError (Option PackageMetadata × Json) := do
  let key := spec.slug
  let cached ← MetadataCache.get cachePayload now key
  if cached.truthy then do
    let md ← decodePackageMetadata cached
    return (some md, cachePayload)
  else do
    let fetched : Except PyError (Option PackageMetadata) :=
      if spec.ecosystem = "pypi" then fetch_pypi net spec
      else if spec.ecosystem = "npm" then fetch_npm net spec
      else .ok none
    match fetched with
    | .error .httpError => return (none, cachePayload)
    | .error e => .error e
    | .ok none => return (none, cachePayload)
    | .ok (some md) => do
      let payload' ← MetadataCache.set cachePayload now key (encodePackageMetadata md)
      return (some md, payload')

/-! ## Concrete inputs used by witnesses and counterexamples -/

def sampleSpec : DependencySpec :=
  { name := "reqeusts", version := some "1.0.0", ecosystem := "pypi",
    source_path := "requirements.txt" }

def sampleNow : PyDatetime := ⟨2026, 10, 12, 0, 0, 0, 0, some 0⟩

def sampleMetadata : PackageMetadata :=
  { name := "reqeusts", ecosystem := "pypi", latest_version := some "1.0.0",
    latest_published := some sampleNow, first_published := some sampleNow,
    maintainers := [], weekly_downloads := none, homepage := none,
    repository_url := none, raw := Json.obj [] }

/-- The concrete assessment produced for `sampleSpec`/`sampleMetadata`
at `sampleNow` with an empty corpus: fresh-release (0 days old) and
maintainers (zero maintainers) fire, nothing else. -/
def c2res : PackageAssessment :=
  { dependency := sampleSpec, metadata := some sampleMetadata,
    signals := [freshReleaseSignal, maintainersSignal], score := 45 }

def c3spec : DependencySpec :=
  { name := "ab", version := none, ecosystem := "pypi", source_path := "m" }

def c3corpora : TopPackages := [("pypi", ["abc", "ab"])]

def c3base : PackageAssessment :=
  { dependency := c3spec, metadata := none, signals := [], score := 0 }

def c4spec : DependencySpec :=
  { name := "ab", version := none, ecosystem := "pypi", source_path := "m" }

def c4corpora : TopPackages := [("pypi", ["ab", "abc"])]

def c4base : PackageAssessment :=
  { dependency := c4spec, metadata := none, signals := [], score := 0 }

/-- A network whose responses are HTTP 200 with a body `resp.json()`
cannot decode. -/
def c5net_bad_json : Net := ⟨fun _ => .ok ⟨200, none⟩⟩

/-- A network answering 404 to everything. -/
def c5net_404 : Net := ⟨fun _ => .ok ⟨404, none⟩⟩

/-- A network raising `httpx.ConnectError` (an `httpx.HTTPError`) on
every request. -/
def c5net_connerr : Net := ⟨fun _ => .error .httpError⟩

def c5spec : DependencySpec :=
  { name := "requests", version := none, ecosystem := "pypi",
    source_path := "requirements.txt" }

def c6now : PyDatetime := ⟨2024, 2, 15, 0, 0, 0, 0, some 0⟩

def c6metadata : PackageMetadata :=
  { name := "left-pad", ecosystem := "npm", latest_version := none,
    latest_published := none, first_published := some ⟨2024, 1, 1, 0, 0, 0, 0, some 0⟩,
    maintainers := ["a", "b"], weekly_downloads := none, homepage := none,
    repository_url := none, raw := Json.obj [] }

def c6base : PackageAssessment :=
  { dependency := c3spec, metadata := some c6metadata, signals := [], score := 0 }

/-! ## Frame lemmas about the evaluators -/

/-- The typosquat scan only ever appends typosquat signals and never
touches the dependency or metadata fields. -/
theorem typosquatScan_frame (spec : DependencySpec) (a : PackageAssessment) :
    ∀ tops, (typosquatScan spec a tops).dependency = a.dependency ∧
      (typosquatScan spec a tops).metadata = a.metadata ∧
      ∃ suf, (typosquatScan spec a tops).signals = a.signals ++ suf ∧
        ∀ s ∈ suf, s.category = Category.typosquat := by
  intro tops
  induction tops with
  | nil => exact ⟨rfl, rfl, [], by simp [typosquatScan], by simp⟩
  | cons top rest ih =>
    by_cases h0 : levenshtein spec.name top = 0
    · refine ⟨?_, ?_, [], ?_, by simp⟩ <;> simp [typosquatScan, h0]
    · by_cases h2 : levenshtein spec.name top ≤ 2
      · refine ⟨?_, ?_, [typosquatSignal spec.name (levenshtein spec.name top) top], ?_, ?_⟩ <;>
          simp [typosquatScan, h0, h2, PackageAssessment.add_signal, typosquatSignal]
      · simpa [typosquatScan, h0, h2] using ih

theorem evaluate_typosquat_frame (corpora : TopPackages) (spec : DependencySpec)
    (a : PackageAssessment) :
    (evaluate_typosquat corpora spec a).dependency = a.dependency ∧
      (evaluate_typosquat corpora spec a).metadata = a.metadata ∧
      ∃ suf, (evaluate_typosquat corpora spec a).signals = a.signals ++ suf ∧
        ∀ s ∈ suf, s.category = Category.typosquat :=
  typosquatScan_frame spec a _

theorem evaluate_recency_frame (now : PyDatetime) (md : PackageMetadata)
    (a a' : PackageAssessment) (h : evaluate_recency now md a = .ok a') :
    a'.dependency = a.dependency ∧ a'.metadata = a.metadata ∧
      ∃ suf, a'.signals = a.signals ++ suf ∧
        ∀ s ∈ suf, s.category = Category.freshRelease := by
  unfold evaluate_recency at h
  split at h
  · cases h
    exact ⟨rfl, rfl, [], by simp, by simp⟩
  · split at h
    · simp at h
    · split at h
      · cases h
        exact ⟨rfl, rfl, [freshReleaseSignal],
          by simp [PackageAssessment.add_signal], by simp [freshReleaseSignal]⟩
      · cases h
        exact ⟨rfl, rfl, [], by simp, by simp⟩

theorem evaluate_staleness_frame (now : PyDatetime) (md : PackageMetadata)
    (a a' : PackageAssessment) (h : evaluate_staleness now md a = .ok a') :
    a'.dependency = a.dependency ∧ a'.metadata = a.metadata ∧
      ∃ suf, a'.signals = a.signals ++ suf ∧
        ∀ s ∈ suf, s.category = Category.stalePackage := by
  unfold evaluate_staleness at h
  split at h
  · cases h
    exact ⟨rfl, rfl, [], by simp, by simp⟩
  · split at h
    · simp at h
    · split at h
      · cases h
        exact ⟨rfl, rfl, [stalePackageSignal],
          by simp [PackageAssessment.add_signal], by simp [stalePackageSignal]⟩
      · cases h
        exact ⟨rfl, rfl, [], by simp, by simp⟩

theorem evaluate_popularity_frame (md : PackageMetadata) (a : PackageAssessment) :
    (evaluate_popularity md a).dependency = a.dependency ∧
      (evaluate_popularity md a).metadata = a.metadata ∧
      ∃ suf, (evaluate_popularity md a).signals = a.signals ++ suf ∧
        ∀ s ∈ suf, s.category = Category.popularity := by
  unfold evaluate_popularity
  cases hw : md.weekly_downloads with
  | none => exact ⟨rfl, rfl, [], by simp, by simp⟩
  | some downloads =>
    by_cases hlt : downloads < LOW_DOWNLOADS_THRESHOLD
    · refine ⟨?_, ?_, [popularitySignal downloads], ?_, ?_⟩ <;>
        simp [hlt, PackageAssessment.add_signal, popularitySignal]
    · refine ⟨?_, ?_, [], ?_, ?_⟩ <;> simp [hlt]

theorem evaluate_maintainers_frame (md : PackageMetadata) (a : PackageAssessment) :
    (evaluate_maintainers md a).dependency = a.dependency ∧
      (evaluate_maintainers md a).metadata = a.metadata ∧
      ∃ suf, (evaluate_maintainers md a).signals = a.signals ++ suf ∧
        ∀ s ∈ suf, s.category = Category.maintainers := by
  unfold evaluate_maintainers
  by_cases hm : md.maintainers.length ≤ 1
  · refine ⟨?_, ?_, [maintainersSignal], ?_, ?_⟩ <;>
      simp [hm, PackageAssessment.add_signal, maintainersSignal]
  · refine ⟨?_, ?_, [], ?_, ?_⟩ <;> simp [hm]

/-- Reference names at distance greater than 2 are skipped by the scan. -/
theorem typosquatScan_skip (spec : DependencySpec) (a : PackageAssessment)
    (pre rest : List String)
    (hpre : ∀ p ∈ pre, 2 < levenshtein spec.name p) :
    typosquatScan spec a (pre ++ rest) = typosquatScan spec a rest := by
  induction pre with
  | nil => rfl
  | cons p ps ih =>
    have hp := hpre p (by simp)
    have hne : levenshtein spec.name p ≠ 0 := by omega
    have hgt : ¬ levenshtein spec.name p ≤ 2 := by omega
    simp only [List.cons_append, typosquatScan, hne, if_false, hgt]
    exact ih fun q hq => hpre q (by simp [hq])

/-! ## C1 -/

/-- C1: the `score` field of a `PackageAssessment` equals
`min(100, sum of signal severities)` at construction and after every
individual `add_signal` operation (the single operation that mutates
score and signal list together). -/
theorem c1_score_invariant :
    (∀ (dep : DependencySpec) (md : Option PackageMetadata),
      (PackageAssessment.mk dep md [] 0).score
        = min 100 (severitySum (PackageAssessment.mk dep md [] 0).signals)) ∧
    (∀ (a : PackageAssessment) (s : RiskSignal),
      a.score = min 100 (severitySum a.signals) →
      (a.add_signal s).score = min 100 (severitySum (a.add_signal s).signals)) := by
  constructor
  · intro dep md
    simp [severitySum]
  · intro a s h
    simp only [PackageAssessment.add_signal, severitySum, List.map_append,
      List.sum_append, List.map_cons, List.map_nil, List.sum_cons, List.sum_nil] at *
    omega

/-- Witness for C1 at a concrete assessment satisfying the invariant. -/
theorem c1_score_invariant_witness :
    ((PackageAssessment.mk sampleSpec none [metadataGapsSignal] 40).add_signal
        freshReleaseSignal).score
      = min 100 (severitySum
          ((PackageAssessment.mk sampleSpec none [metadataGapsSignal] 40).add_signal
            freshReleaseSignal).signals) :=
  c1_score_invariant.2 (PackageAssessment.mk sampleSpec none [metadataGapsSignal] 40)
    freshReleaseSignal (by decide)

/-! ## C3 -/

/-- C3 counterexample: the dependency name "ab" has edit distance 0 to
the corpus entry "ab", yet the evaluator emits a typosquat signal,
because the distance-1 entry "abc" occurs earlier in scan order and the
scan stops there.  This falsifies "zero typosquat signals regardless of
where in the scan order the exact match occurs". -/
theorem c3_counterexample :
    levenshtein c3spec.name "ab" = 0 ∧
    "ab" ∈ get_top_packages c3corpora c3spec.ecosystem ∧
    (evaluate_typosquat c3corpora c3spec c3base).signals
      = [typosquatSignal "ab" 1 "abc"] := by
  refine ⟨by decide, by decide, ?_⟩
  rfl

/-- C3 amended: if the FIRST reference name within edit distance 2 in
scan order is an exact match (distance 0) — i.e. every earlier entry has
distance greater than 2 — then the evaluator emits zero typosquat
signals and the assessment is returned unchanged. -/
theorem c3_exact_match_suppresses (corpora : TopPackages) (spec : DependencySpec)
    (a : PackageAssessment) (pre suf : List String) (t : String)
    (hc : get_top_packages corpora spec.ecosystem = pre ++ t :: suf)
    (h0 : levenshtein spec.name t = 0)
    (hpre : ∀ p ∈ pre, 2 < levenshtein spec.name p) :
    evaluate_typosquat corpora spec a = a := by
  unfold evaluate_typosquat
  rw [hc, typosquatScan_skip spec a pre (t :: suf) hpre]
  simp [typosquatScan, h0]

/-- Witness for C3's amended theorem: exact match first in scan order
(after a distance-6 entry) suppresses the signal. -/
theorem c3_exact_match_suppresses_witness :
    evaluate_typosquat [("pypi", ["zzzzzz", "ab"])] c3spec c3base = c3base :=
  c3_exact_match_suppresses [("pypi", ["zzzzzz", "ab"])] c3spec c3base
    ["zzzzzz"] [] "ab" rfl (by decide) (by decide)

/-! ## C4 -/

/-- C4 counterexample: the name "ab" has edit distance 1 to the corpus
entry "abc", yet the evaluator emits no signal at all, because the exact
match "ab" occurs earlier in scan order and stops the scan.  This
falsifies "distance in [1,2] to at least one reference name ⇒ exactly
one signal". -/
theorem c4_counterexample :
    levenshtein c4spec.name "abc" = 1 ∧
    "abc" ∈ get_top_packages c4corpora c4spec.ecosystem ∧
    (evaluate_typosquat c4corpora c4spec c4base).signals = [] := by
  refine ⟨by decide, by decide, ?_⟩
  rfl

/-- C4 amended: if the FIRST reference name within edit distance 2 in
scan order has distance in [1,2] — i.e. every earlier entry has distance
greater than 2, so in particular no earlier exact match — the evaluator
emits exactly one signal, severity 50, naming that reference name (not
the globally closest one), and stops scanning (the entries after it are
irrelevant). -/
theorem c4_first_match_signal (corpora : TopPackages) (spec : DependencySpec)
    (a : PackageAssessment) (pre suf : List String) (t : String)
    (hc : get_top_packages corpora spec.ecosystem = pre ++ t :: suf)
    (h1 : 1 ≤ levenshtein spec.name t) (h2 : levenshtein spec.name t ≤ 2)
    (hpre : ∀ p ∈ pre, 2 < levenshtein spec.name p) :
    evaluate_typosquat corpora spec a
      = a.add_signal (typosquatSignal spec.name (levenshtein spec.name t) t) := by
  unfold evaluate_typosquat
  rw [hc, typosquatScan_skip spec a pre (t :: suf) hpre]
  have hne : levenshtein spec.name t ≠ 0 := by omega
  simp [typosquatScan, hne, h2]

/-- Witness for C4's amended theorem: first qualifying entry "abc"
(distance 1) is named, scan order deciding, with severity 50. -/
theorem c4_first_match_signal_witness :
    evaluate_typosquat [("pypi", ["zzzzzz", "abc", "ab"])] c4spec c4base
      = c4base.add_signal (typosquatSignal "ab" 1 "abc") := by
  have h := c4_first_match_signal [("pypi", ["zzzzzz", "abc", "ab"])] c4spec c4base
    ["zzzzzz"] ["ab"] "abc" rfl (by decide) (by decide) (by decide)
  simpa using h

/-! ## C2 -/

/-- C2: with metadata absent, `assess_dependency` returns exactly one
signal — category metadata-gaps, severity 40, total score 40 — and none
of the five evaluators runs (the returned assessment is literally the
short-circuit result); with metadata present, no metadata-gaps signal is
ever emitted. -/
theorem c2_metadata_gaps_iff :
    (∀ (corpora : TopPackages) (now : PyDatetime) (spec : DependencySpec),
      assess_dependency corpora now spec none =
        .ok { dependency := spec, metadata := none,
              signals := [metadataGapsSignal], score := 40 }) ∧
    (∀ (corpora : TopPackages) (now : PyDatetime) (spec : DependencySpec)
        (md : PackageMetadata) (a : PackageAssessment),
      assess_dependency corpora now spec (some md) = .ok a →
      ∀ s ∈ a.signals, s.category ≠ Category.metadataGaps) := by
  constructor
  · intro corpora now spec
    rfl
  · intro corpora now spec md a h s hs
    unfold assess_dependency at h
    simp only [bind, Except.bind] at h
    split at h
    · simp at h
    next a2 heq2 =>
      split at h
      · simp at h
      next a3 heq3 =>
        simp only [pure, Except.pure, Except.ok.injEq] at h
        subst h
        obtain ⟨-, -, s1, hs1, hc1⟩ := evaluate_typosquat_frame corpora spec
          { dependency := spec, metadata := some md, signals := [], score := 0 }
        obtain ⟨-, -, s2, hs2, hc2⟩ := evaluate_recency_frame now md _ a2 heq2
        obtain ⟨-, -, s3, hs3, hc3⟩ := evaluate_staleness_frame now md a2 a3 heq3
        obtain ⟨-, -, s4, hs4, hc4⟩ := evaluate_popularity_frame md a3
        obtain ⟨-, -, s5, hs5, hc5⟩ := evaluate_maintainers_frame md
          (evaluate_popularity md a3)
        rw [hs5, hs4, hs3, hs2, hs1] at hs
        simp only [List.nil_append, List.mem_append] at hs
        rcases hs with ((((hm | hm) | hm) | hm) | hm)
        · rw [hc1 s hm]; intro hcon; cases hcon
        · rw [hc2 s hm]; intro hcon; cases hcon
        · rw [hc3 s hm]; intro hcon; cases hcon
        · rw [hc4 s hm]; intro hcon; cases hcon
        · rw [hc5 s hm]; intro hcon; cases hcon

/-- Witness for C2 at a concrete present-metadata run. -/
theorem c2_metadata_gaps_iff_witness :
    freshReleaseSignal.category ≠ Category.metadataGaps :=
  c2_metadata_gaps_iff.2 [] sampleNow sampleSpec sampleMetadata c2res (by rfl)
    freshReleaseSignal (by simp [c2res])

/-! ## C9 -/

/-- C9: the assessment returned by `assess_dependency` carries the input
dependency spec and the input metadata unchanged — the evaluators only
append signals and update the score. -/
theorem c9_frame (corpora : TopPackages) (now : PyDatetime)
    (spec : DependencySpec) (md : Option PackageMetadata) (a : PackageAssessment)
    (h : assess_dependency corpora now spec md = .ok a) :
    a.dependency = spec ∧ a.metadata = md := by
  unfold assess_dependency at h
  cases md with
  | none =>
    cases h
    exact ⟨rfl, rfl⟩
  | some md =>
    simp only [bind, Except.bind] at h
    split at h
    · simp at h
    next a2 heq2 =>
      split at h
      · simp at h
      next a3 heq3 =>
        simp only [pure, Except.pure, Except.ok.injEq] at h
        subst h
        obtain ⟨hd1, hm1, -⟩ := evaluate_typosquat_frame corpora spec
          { dependency := spec, metadata := some md, signals := [], score := 0 }
        obtain ⟨hd2, hm2, -⟩ := evaluate_recency_frame now md _ a2 heq2
        obtain ⟨hd3, hm3, -⟩ := evaluate_staleness_frame now md a2 a3 heq3
        obtain ⟨hd4, hm4, -⟩ := evaluate_popularity_frame md a3
        obtain ⟨hd5, hm5, -⟩ := evaluate_maintainers_frame md (evaluate_popularity md a3)
        constructor
        · rw [hd5, hd4, hd3, hd2, hd1]
        · rw [hm5, hm4, hm3, hm2, hm1]

/-- Witness for C9 at the metadata-absent short-circuit. -/
theorem c9_frame_witness :
    ({ dependency := sampleSpec, metadata := none,
       signals := [metadataGapsSignal], score := 40 } : PackageAssessment).dependency
        = sampleSpec ∧
    ({ dependency := sampleSpec, metadata := none,
       signals := [metadataGapsSignal], score := 40 } : PackageAssessment).metadata
        = none :=
  c9_frame [] sampleNow sampleSpec none _ (by rfl)

/-! ## C6 -/

/-- C6: the fresh-release signal (severity 25) fires iff
`first_published` is present and `now - first_published ≤ 45 days`
(inclusive), the stale-package signal (severity 20) fires iff
`latest_published` is present and `now - latest_published ≥ 365 days`
(inclusive), and each evaluator is independent of the other's timestamp
field. -/
theorem c6_recency_staleness :
    (∀ (now : PyDatetime) (md : PackageMetadata) (a : PackageAssessment),
      md.first_published = none → evaluate_recency now md a = .ok a) ∧
    (∀ (now : PyDatetime) (md : PackageMetadata) (a : PackageAssessment)
        (fp : PyDatetime) (d : Int),
      md.first_published = some fp → PyDatetime.sub now fp = some d →
      evaluate_recency now md a =
        .ok (if d ≤ RECENT_THRESHOLD_DAYS * microsecondsPerDay then
            a.add_signal freshReleaseSignal
          else a)) ∧
    (∀ (now : PyDatetime) (md : PackageMetadata) (a : PackageAssessment),
      md.latest_published = none → evaluate_staleness now md a = .ok a) ∧
    (∀ (now : PyDatetime) (md : PackageMetadata) (a : PackageAssessment)
        (lp : PyDatetime) (d : Int),
      md.latest_published = some lp → PyDatetime.sub now lp = some d →
      evaluate_staleness now md a =
        .ok (if d ≥ STALE_THRESHOLD_DAYS * microsecondsPerDay then
            a.add_signal stalePackageSignal
          else a)) ∧
    (∀ (now : PyDatetime) (md : PackageMetadata) (a : PackageAssessment)
        (x : Option PyDatetime),
      evaluate_recency now { md with latest_published := x } a
        = evaluate_recency now md a) ∧
    (∀ (now : PyDatetime) (md : PackageMetadata) (a : PackageAssessment)
        (x : Option PyDatetime),
      evaluate_staleness now { md with first_published := x } a
        = evaluate_staleness now md a) := by
  refine ⟨?_, ?_, ?_, ?_, ?_, ?_⟩
  · intro now md a h
    unfold evaluate_recency
    rw [h]
  · intro now md a fp d hfp hd
    unfold evaluate_recency
    rw [hfp]
    simp only [hd]
    split <;> rfl
  · intro now md a h
    unfold evaluate_staleness
    rw [h]
  · intro now md a lp d hlp hd
    unfold evaluate_staleness
    rw [hlp]
    simp only [hd]
    split <;> rfl
  · intro now md a x
    rfl
  · intro now md a x
    rfl

/-- Witness for C6 at the inclusive 45-day boundary: first published
exactly 45 days before `now` still fires the fresh-release signal. -/
theorem c6_recency_staleness_witness :
    evaluate_recency c6now c6metadata c6base
      = .ok (c6base.add_signal freshReleaseSignal) := by
  have h := c6_recency_staleness.2.1 c6now c6metadata c6base
    ⟨2024, 1, 1, 0, 0, 0, 0, some 0⟩ (45 * microsecondsPerDay) rfl (by rfl)
  simpa using h

/-! ## C8 -/

/-- Upserting stores the new value under the key. -/
theorem jsonLookup_jsonUpsert (kvs : List (String × Json)) (k : String) (v : Json) :
    jsonLookup (jsonUpsert kvs k v) k = some v := by
  induction kvs with
  | nil => simp [jsonUpsert, jsonLookup]
  | cons kv rest ih =>
    obtain ⟨k', v'⟩ := kv
    by_cases hk : k' = k
    · simp [jsonUpsert, hk, jsonLookup]
    · simp [jsonUpsert, hk, jsonLookup, ih]

/-- C8: `MetadataCache.get` returns absent (Python `None`, `Json.null`)
when the backing store was missing or unparseable (without raising),
when no entry exists for the slug, and when `now - entry.timestamp`
exceeds the 6-hour TTL; a stale entry is not deleted (`get` never
modifies the payload — it is a pure function of it) and a later `set`
overwrites the slot so that `get` sees the new record. -/
theorem c8_cache_get_contract :
    (∀ (now : Int) (key : String),
      MetadataCache.get (MetadataCache.init none) now key = .ok Json.null) ∧
    (∀ (now : Int) (key : String),
      MetadataCache.get (MetadataCache.init (some none)) now key = .ok Json.null) ∧
    (∀ (kvs : List (String × Json)) (now : Int) (key : String),
      jsonLookup kvs key = none →
      MetadataCache.get (Json.obj kvs) now key = .ok Json.null) ∧
    (∀ (kvs ekvs : List (String × Json)) (now ts : Int) (key : String),
      jsonLookup kvs key = some (Json.obj ekvs) →
      jsonLookup ekvs "timestamp" = some (Json.num ts) →
      now - ts > CACHE_TTL_SECONDS →
      MetadataCache.get (Json.obj kvs) now key = .ok Json.null) ∧
    (∀ (kvs : List (String × Json)) (now : Int) (key : String) (data : Json),
      ∃ p', MetadataCache.set (Json.obj kvs) now key data = .ok p' ∧
        MetadataCache.get p' now key = .ok data) := by
  refine ⟨?_, ?_, ?_, ?_, ?_⟩
  · intro now key
    rfl
  · intro now key
    rfl
  · intro kvs now key h
    simp [MetadataCache.get, pyGet, h, Json.truthy, bind, Except.bind, pure, Except.pure]
  · intro kvs ekvs now ts key h1 h2 h3
    have hne : ekvs ≠ [] := by
      intro he
      rw [he] at h2
      simp [jsonLookup] at h2
    simp [MetadataCache.get, pyGet, pyToInt, h1, h2, h3, Json.truthy, hne,
      bind, Except.bind, pure, Except.pure]
  · intro kvs now key data
    refine ⟨_, rfl, ?_⟩
    have hnotstale : ¬ (now - now > CACHE_TTL_SECONDS) := by
      simp [CACHE_TTL_SECONDS]
    simp [MetadataCache.get, pyGet, pyToInt, jsonLookup_jsonUpsert, jsonLookup,
      Json.truthy, hnotstale, bind, Except.bind, pure, Except.pure, CACHE_TTL_SECONDS]

/-- Witness for C8: a concrete entry written at timestamp 0 read at unix
second 1000000 is past the TTL and reads as absent. -/
theorem c8_cache_get_contract_witness :
    MetadataCache.get
      (Json.obj [("pypi:left-pad",
        Json.obj [("timestamp", Json.num 0), ("data", Json.str "x")])])
      1000000 "pypi:left-pad" = .ok Json.null :=
  c8_cache_get_contract.2.2.2.1
    [("pypi:left-pad", Json.obj [("timestamp", Json.num 0), ("data", Json.str "x")])]
    [("timestamp", Json.num 0), ("data", Json.str "x")] 1000000 0 "pypi:left-pad"
    rfl rfl (by decide)

/-! ## C10 -/

/-- C10: an entry lacking a timestamp field reads its timestamp as 0 and
is therefore past the TTL whenever the clock is more than the TTL after
the epoch, so `get` returns absent; and a falsy cached record (the empty
mapping) is treated by `fetch_metadata` as a miss — the fetched result
is the same as with an empty cache, the registry being consulted instead
of the cached value being returned. -/
theorem c10_falsy_cache_entries :
    (∀ (kvs ekvs : List (String × Json)) (now : Int) (key : String),
      jsonLookup kvs key = some (Json.obj ekvs) →
      jsonLookup ekvs "timestamp" = none →
      ekvs ≠ [] →
      CACHE_TTL_SECONDS < now →
      MetadataCache.get (Json.obj kvs) now key = .ok Json.null) ∧
    (∀ (p : Json) (net : Net) (now : Int) (spec : DependencySpec),
      MetadataCache.get p now spec.slug = .ok (Json.obj []) →
      (fetch_metadata p net now spec).map Prod.fst
        = (fetch_metadata (Json.obj []) net now spec).map Prod.fst) := by
  constructor
  · intro kvs ekvs now key h1 h2 h3 h4
    simp [MetadataCache.get, pyGet, pyToInt, h1, h2, h3, h4, Json.truthy,
      bind, Except.bind, pure, Except.pure]
  · intro p net now spec h
    cases p with
    | obj kvs =>
      have h0 : MetadataCache.get (Json.obj []) now spec.slug = .ok Json.null := rfl
      simp only [fetch_metadata, h, h0, bind, Except.bind, Json.truthy,
        List.isEmpty_nil, Bool.not_true, Bool.false_eq_true, if_false]
      generalize (if spec.ecosystem = "pypi" then fetch_pypi net spec
        else if spec.ecosystem = "npm" then fetch_npm net spec
        else Except.ok none) = F
      cases F with
      | error e => cases e <;> rfl
      | ok o => cases o <;> rfl
    | null => simp [MetadataCache.get, pyGet, bind, Except.bind] at h
    | bool b => simp [MetadataCache.get, pyGet, bind, Except.bind] at h
    | num n => simp [MetadataCache.get, pyGet, bind, Except.bind] at h
    | str s => simp [MetadataCache.get, pyGet, bind, Except.bind] at h
    | arr xs => simp [MetadataCache.get, pyGet, bind, Except.bind] at h

/-- Witness for C10: an entry with data but no timestamp reads as absent
at unix second 1000000. -/
theorem c10_falsy_cache_entries_witness :
    MetadataCache.get (Json.obj [("k", Json.obj [("data", Json.str "x")])])
      1000000 "k" = .ok Json.null :=
  c10_falsy_cache_entries.1 [("k", Json.obj [("data", Json.str "x")])]
    [("data", Json.str "x")] 1000000 "k" rfl rfl (by simp) (by decide)

/-! ## C5 -/

/-- C5: a non-success status and a connection error do degrade to absent
metadata, but a malformed (non-JSON-decodable) 200 response body makes
`fetch_metadata` raise `json.JSONDecodeError` — `resp.json()` raises it
and the surrounding `try` catches only `httpx.HTTPError`, which
`JSONDecodeError` is not — so the fault propagates to the caller and can
abort the whole batch, contradicting the claim. -/
theorem c5_malformed_body_raises :
    fetch_metadata (Json.obj []) c5net_bad_json 1700000000 c5spec
      = .error .jsonDecodeError ∧
    fetch_metadata (Json.obj []) c5net_404 1700000000 c5spec
      = .ok (none, Json.obj []) ∧
    fetch_metadata (Json.obj []) c5net_connerr 1700000000 c5spec
      = .ok (none, Json.obj []) :=
  ⟨rfl, rfl, rfl⟩

/-! ## C7 -/

/-- Any offset accepted by the offset parser is at most 23:59:59. -/
theorem parseOffsetTail_bound (cs0 : List Char) (n : Nat)
    (h : parseOffsetTail cs0 = some n) : n ≤ 86399 := by
  unfold parseOffsetTail at h
  repeat' split at h
  all_goals first
  | exact Option.noConfusion h
  | (injection h with h; omega)

/-- A datetime produced by the ISO parser is naive or carries an offset
strictly inside ±24 hours. -/
theorem fromisoformat_offset (s : String) (dt : PyDatetime)
    (h : fromisoformat s = some dt) :
    dt.utcoffset = none ∨
      ∃ o, dt.utcoffset = some o ∧ -86400 < o ∧ o < 86400 := by
  unfold fromisoformat at h
  repeat' split at h
  all_goals first
  | exact Option.noConfusion h
  | (injection h with h; subst h; left; rfl)
  | (injection h with h; subst h
     rename_i off heq
     have hb := parseOffsetTail_bound _ _ heq
     right
     exact ⟨_, rfl, by omega, by omega⟩)

/-- C7 counterexample: the well-formed but offset-less registry
timestamp "2021-01-01T00:00:00" is parsed to a present, NAIVE datetime
(`utcoffset = none`), contradicting "never produces a naive
(offset-less) datetime" and "always a timezone-aware UTC instant". -/
theorem c7_naive_counterexample :
    parse_datetime (some "2021-01-01T00:00:00")
      = some ⟨2021, 1, 1, 0, 0, 0, 0, none⟩ := by
  rfl

/-- C7 amended: `_parse_datetime` is total (malformed strings give
absent, never an error), missing and empty input give absent (never a
default of "now" or the epoch), any aware result carries a valid
timezone offset strictly inside ±24 h, and a Z-suffixed registry
timestamp yields an aware UTC instant — but a well-formed offset-less
string yields a naive datetime (see the counterexample). -/
theorem c7_parse_datetime_amended :
    (parse_datetime none = none) ∧
    (parse_datetime (some "") = none) ∧
    (parse_datetime (some "not a timestamp") = none) ∧
    (∀ (s : String) (dt : PyDatetime) (o : Int),
      parse_datetime (some s) = some dt → dt.utcoffset = some o →
      -86400 < o ∧ o < 86400) ∧
    (parse_datetime (some "2024-01-02T03:04:05Z")
      = some ⟨2024, 1, 2, 3, 4, 5, 0, some 0⟩) := by
  refine ⟨rfl, rfl, rfl, ?_, rfl⟩
  intro s dt o h ho
  unfold parse_datetime at h
  repeat' split at h
  all_goals first
  | exact Option.noConfusion h
  | (rcases fromisoformat_offset _ _ h with hnone | ⟨o', ho', hb1, hb2⟩
     · rw [hnone] at ho
       exact Option.noConfusion ho
     · rw [ho'] at ho
       injection ho with ho
       omega)

/-- Witness for C7's amended theorem: a parsed +05:30 offset is inside
the valid range. -/
theorem c7_parse_datetime_amended_witness :
    -86400 < (19800 : Int) ∧ (19800 : Int) < 86400 :=
  c7_parse_datetime_amended.2.2.2.1 "2021-06-01T12:00:00+05:30"
    ⟨2021, 6, 1, 12, 0, 0, 0, some 19800⟩ 19800 (by rfl) (by rfl)

end SupplyChainSiren
